import Mathlib

/-!
Verification development for the participation API.

The HTTP route handlers (src/app/routes), the pydantic request/response
models (src/app/models) and the stored-procedure error mapper
(src/app/utils/errors.py) are embedded shallowly below: UUIDs and
timestamps become `Nat`, database rows become structures, fallible
handler code returns `Except`, and pydantic model construction with
keyword arguments is modelled by an explicit keyword list so that a
wrong keyword name is visible, exactly as it is to pydantic at runtime.
The business engine itself lives in database stored procedures that are
not part of the source tree; where a property depends on it, a
definition marked "Modelled from the spec" reconstructs it from the
specification text.
-/

/-- An HTTP error as raised by the FastAPI layer: status code and detail. -/
structure HTTPException where
  status_code : Nat
  detail : String
deriving DecidableEq, Repr

/-- Errors a route handler can surface: an explicit HTTPException raised by
the handler, or a pydantic ValidationError escaping from response-model
construction. -/
inductive HandlerError where
  | http (e : HTTPException)
  | validation (msg : String)
deriving DecidableEq, Repr

/-- A python value passed as a keyword argument to a pydantic model
constructor. -/
inductive PyValue where
  | uuid (id : Nat)
  | str (s : String)
  | int (n : Int)
  | time (t : Nat)
deriving DecidableEq, Repr

/-- Keyword-argument lookup: the value bound to keyword `k`, if present. -/
def kwLookup (kw : List (String × PyValue)) (k : String) : Option PyValue :=
  (kw.find? (fun p => p.1 == k)).map (fun p => p.2)

/- Error tables of src/app/utils/errors.py, one list per python dict,
entries in source order. -/

/-- Error mapping for join_activity (errors.py lines 16-28). -/
def join_activity_errors : List (String × Nat × String) :=
  [("ACTIVITY_NOT_FOUND", 404, "Activity not found"),
   ("USER_NOT_FOUND", 404, "User not found"),
   ("ALREADY_JOINED", 400, "Already joined this activity"),
   ("BLOCKED_USER", 403, "Cannot join this activity"),
   ("FRIENDS_ONLY", 403, "Activity is friends only"),
   ("INVITE_ONLY", 403, "Activity is invite only"),
   ("PREMIUM_ONLY_PERIOD", 403, "Activity is currently only open to Premium members"),
   ("USER_BANNED", 403, "Account is banned"),
   ("ACTIVITY_IN_PAST", 400, "Cannot join past activities"),
   ("ACTIVITY_NOT_PUBLISHED", 400, "Activity is not published"),
   ("USER_IS_ORGANIZER", 400, "Organizer cannot join own activity")]

/-- Error mapping for leave_activity (errors.py lines 31-36). -/
def leave_activity_errors : List (String × Nat × String) :=
  [("ACTIVITY_NOT_FOUND", 404, "Activity not found"),
   ("NOT_PARTICIPANT", 400, "Not a participant of this activity"),
   ("IS_ORGANIZER", 403, "Organizer cannot leave activity"),
   ("ACTIVITY_IN_PAST", 400, "Cannot leave past activities")]

/-- Error mapping for cancel_participation (errors.py lines 39-44). -/
def cancel_participation_errors : List (String × Nat × String) :=
  [("ACTIVITY_NOT_FOUND", 404, "Activity not found"),
   ("NOT_PARTICIPANT", 400, "Not a participant of this activity"),
   ("ALREADY_CANCELLED", 400, "Participation already cancelled"),
   ("ACTIVITY_IN_PAST", 400, "Cannot cancel past activities")]

/-- Error mapping for promote_participant (errors.py lines 47-52). -/
def promote_errors : List (String × Nat × String) :=
  [("ACTIVITY_NOT_FOUND", 404, "Activity not found"),
   ("NOT_ORGANIZER", 403, "Only organizer can promote participants"),
   ("TARGET_NOT_MEMBER", 400, "User is not a member participant"),
   ("ALREADY_CO_ORGANIZER", 400, "User is already a co-organizer")]

/-- Error mapping for demote_participant (errors.py lines 55-59). -/
def demote_errors : List (String × Nat × String) :=
  [("ACTIVITY_NOT_FOUND", 404, "Activity not found"),
   ("NOT_ORGANIZER", 403, "Only organizer can demote participants"),
   ("NOT_CO_ORGANIZER", 400, "User is not a co-organizer")]

/-- Error mapping for mark_attendance (errors.py lines 62-67). -/
def attendance_errors : List (String × Nat × String) :=
  [("ACTIVITY_NOT_FOUND", 404, "Activity not found"),
   ("NOT_AUTHORIZED", 403, "Only organizer or co-organizer can mark attendance"),
   ("ACTIVITY_NOT_COMPLETED", 400, "Activity has not yet completed"),
   ("TOO_MANY_UPDATES", 400, "Maximum 100 attendances per request")]

/-- Error mapping for confirm_attendance (errors.py lines 70-77). -/
def confirm_errors : List (String × Nat × String) :=
  [("ACTIVITY_NOT_FOUND", 404, "Activity not found"),
   ("ACTIVITY_NOT_COMPLETED", 400, "Activity has not yet completed"),
   ("CONFIRMER_NOT_ATTENDED", 400, "You must have attended status to confirm others"),
   ("CONFIRMED_NOT_ATTENDED", 400, "User does not have attended status"),
   ("SELF_CONFIRMATION", 400, "Cannot confirm your own attendance"),
   ("ALREADY_CONFIRMED", 400, "You already confirmed this user for this activity")]

/-- Error mapping for invitations (errors.py lines 80-90). -/
def invitation_errors : List (String × Nat × String) :=
  [("ACTIVITY_NOT_FOUND", 404, "Activity not found"),
   ("NOT_INVITE_ONLY", 400, "Activity is not invite-only"),
   ("NOT_AUTHORIZED", 403, "Only organizer or co-organizer can send invitations"),
   ("TOO_MANY_INVITATIONS", 400, "Maximum 50 invitations per request"),
   ("INVITATION_NOT_FOUND", 404, "Invitation not found"),
   ("NOT_YOUR_INVITATION", 403, "This invitation is not for you"),
   ("ALREADY_RESPONDED", 400, "Invitation already responded to"),
   ("INVITATION_EXPIRED", 400, "Invitation has expired"),
   ("ACTIVITY_IN_PAST", 400, "Activity has already occurred")]

/-- The merged table `all_errors` of errors.py lines 93-102: the python
expression `{**a, **b, ...}` binds each key to its value in the LAST map
that mentions it. Concatenation in merge order, looked up from the right,
has exactly those semantics (see `mergedGet`). -/
def all_errors : List (String × Nat × String) :=
  join_activity_errors ++ leave_activity_errors ++ cancel_participation_errors ++
    promote_errors ++ demote_errors ++ attendance_errors ++ confirm_errors ++
    invitation_errors

/-- Lookup in a merged dict: the value of the last binding of `k`, as in a
python dict built by `{**a, **b, ...}`. -/
def mergedGet (d : List (String × Nat × String)) (k : String) : Option (Nat × String) :=
  (d.reverse.find? (fun p => p.1 == k)).map (fun p => p.2)

/-- map_sp_error of errors.py lines 104-107: `all_errors.get(error_code,
(400, error_message))`, wrapped into an HTTPException. -/
def map_sp_error (error_code : String) (error_message : String) : HTTPException :=
  match mergedGet all_errors error_code with
  | some (status_code, detail) => ⟨status_code, detail⟩
  | none => ⟨400, error_message⟩

theorem all_errors_status_codes :
    ∀ p ∈ all_errors, p.2.1 = 400 ∨ p.2.1 = 403 ∨ p.2.1 = 404 := by decide

/-- C10: map_sp_error is total and deterministic: it always yields an
HTTPException with status 400, 403 or 404, and on a code absent from the
merged table it yields 400 with the stored procedure error message passed
through verbatim. -/
theorem map_sp_error_total (error_code error_message : String) :
    ((map_sp_error error_code error_message).status_code = 400 ∨
     (map_sp_error error_code error_message).status_code = 403 ∨
     (map_sp_error error_code error_message).status_code = 404) ∧
    (mergedGet all_errors error_code = none →
      map_sp_error error_code error_message = ⟨400, error_message⟩) := by
  constructor
  · cases h : mergedGet all_errors error_code with
    | none => simp [map_sp_error, h]
    | some r =>
      rcases Option.map_eq_some'.mp h with ⟨p, hp, hpr⟩
      have hmem : p ∈ all_errors := List.mem_reverse.mp (List.mem_of_find?_eq_some hp)
      have hst := all_errors_status_codes p hmem
      obtain ⟨k, s, d⟩ := p
      have hres : map_sp_error error_code error_message = ⟨s, d⟩ := by
        unfold map_sp_error
        rw [h, ← hpr]
      rw [hres]
      exact hst
  · intro hnone
    unfold map_sp_error
    rw [hnone]

/-- Closed instance of C10: a code absent from the merged table maps to
status 400 with the stored procedure message verbatim. -/
theorem map_sp_error_total_witness :
    ((map_sp_error "SOME_NEW_CODE" "boom").status_code = 400 ∨
     (map_sp_error "SOME_NEW_CODE" "boom").status_code = 403 ∨
     (map_sp_error "SOME_NEW_CODE" "boom").status_code = 404) ∧
    map_sp_error "SOME_NEW_CODE" "boom" = ⟨400, "boom"⟩ :=
  ⟨(map_sp_error_total "SOME_NEW_CODE" "boom").1,
   (map_sp_error_total "SOME_NEW_CODE" "boom").2 (by decide)⟩

/-- SendInvitationsRequest of src/app/models/requests.py lines 33-36, as it
stands after pydantic validation has accepted it. -/
structure SendInvitationsRequest where
  user_ids : List Nat
  message : Option String
  expires_in_hours : Int
deriving DecidableEq, Repr

/-- The pydantic field constraints of SendInvitationsRequest: user_ids has
min_length 1 and max_length 50, message (when present) has max_length 1000,
expires_in_hours satisfies ge 1 and le 168. -/
def sendInvitationsFieldsOk (user_ids : List Nat) (message : Option String)
    (expires_in_hours : Int) : Bool :=
  decide (1 ≤ user_ids.length) && decide (user_ids.length ≤ 50) &&
    (match message with
     | none => true
     | some m => decide (m.length ≤ 1000)) &&
    decide (1 ≤ expires_in_hours) && decide (expires_in_hours ≤ 168)

/-- Pydantic construction of SendInvitationsRequest from a request body:
the declared default 72 is applied when expires_in_hours is omitted, then
the field constraints are checked; a violated constraint rejects the
request with a validation error. -/
def SendInvitationsRequest.parse (user_ids : List Nat) (message : Option String)
    (expires_in_hours : Option Int) : Except String SendInvitationsRequest :=
  if sendInvitationsFieldsOk user_ids message (expires_in_hours.getD 72) then
    .ok ⟨user_ids, message, expires_in_hours.getD 72⟩
  else
    .error "ValidationError"

theorem sendInvitationsRequest_parse_isOk (user_ids : List Nat)
    (message : Option String) (expires_in_hours : Option Int) :
    (SendInvitationsRequest.parse user_ids message expires_in_hours).isOk =
      sendInvitationsFieldsOk user_ids message (expires_in_hours.getD 72) := by
  unfold SendInvitationsRequest.parse
  split <;> simp_all [Except.isOk, Except.toBool]

/-- C7: a send_invitations request body is accepted by validation if and
only if it names between 1 and 50 recipients, its optional message is at
most 1000 characters, and expires_in_hours, when supplied, lies between 1
and 168 inclusive; an omitted expires_in_hours is accepted and defaults
to 72. -/
theorem send_invitations_request_validation (user_ids : List Nat)
    (message : Option String) (expires_in_hours : Option Int) :
    ((SendInvitationsRequest.parse user_ids message expires_in_hours).isOk = true ↔
      (1 ≤ user_ids.length ∧ user_ids.length ≤ 50 ∧
       (∀ m, message = some m → m.length ≤ 1000) ∧
       (∀ x, expires_in_hours = some x → 1 ≤ x ∧ x ≤ 168))) ∧
    (∀ r, SendInvitationsRequest.parse user_ids message none = .ok r →
      r.expires_in_hours = 72) := by
  constructor
  · rw [sendInvitationsRequest_parse_isOk]
    cases message <;> cases expires_in_hours <;>
      simp [sendInvitationsFieldsOk, Option.getD] <;> omega
  · intro r h
    unfold SendInvitationsRequest.parse at h
    split at h
    · cases h
      rfl
    · cases h

/-- Closed instance of C7: a one-recipient request with no message and no
explicit expiry validates, via the theorem, with every premise discharged
concretely. -/
theorem send_invitations_request_validation_witness :
    (SendInvitationsRequest.parse [5] none none).isOk = true := by
  apply (send_invitations_request_validation [5] none none).1.mpr
  refine ⟨by decide, by decide, ?_, ?_⟩
  · intro m hm
    cases hm
  · intro x hx
    cases hx

/-- InvitationStatus of src/app/models/requests.py lines 52-57: the
invitation status vocabulary the API layer declares. -/
inductive InvitationStatus where
  | pending
  | accepted
  | declined
  | expired
deriving DecidableEq, Repr

/-- The string value of each InvitationStatus member, as declared in the
python enum. -/
def InvitationStatus.value : InvitationStatus → String
  | .pending => "pending"
  | .accepted => "accepted"
  | .declined => "declined"
  | .expired => "expired"

/-- The members of InvitationStatus, in declaration order. -/
def allInvitationStatuses : List InvitationStatus :=
  [.pending, .accepted, .declined, .expired]

/-- An Invitation row as described by the data model: id, activity,
inviter, invitee, status string, optional message, timestamps. -/
structure Invitation where
  invitation_id : Nat
  activity_id : Nat
  invited_by : Nat
  invited_user_id : Nat
  status : String
  message : Option String
  invited_at : Nat
  expires_at : Nat
  responded_at : Option Nat
deriving DecidableEq, Repr

/-- Modelled from the spec: the stored procedure sp_cancel_invitation is
not under src/ (cancel_invitation in routes/invitations.py only invokes
it by name). Per spec section 4.3, cancel(invitation, sender): the sender
must be the original inviter; only pending invitations may be cancelled;
on success the status moves to cancelled. -/
def sp_cancel_invitation (inv : Invitation) (sender : Nat) : Except String Invitation :=
  if inv.invited_by ≠ sender then .error "NOT_YOUR_INVITATION"
  else if inv.status ≠ "pending" then .error "ALREADY_RESPONDED"
  else .ok { inv with status := "cancelled" }

/-- C8 counterexample: the InvitationStatus enum exposed by the API has
exactly the four values pending, accepted, declined, expired — it does not
contain cancelled and does not have five states, contrary to the claim. -/
theorem invitationStatus_missing_cancelled :
    allInvitationStatuses.map InvitationStatus.value =
      ["pending", "accepted", "declined", "expired"] ∧
    ¬ ("cancelled" ∈ allInvitationStatuses.map InvitationStatus.value) ∧
    (allInvitationStatuses.map InvitationStatus.value).length ≠ 5 := by
  decide

/-- C8 amended: the invitation status vocabulary exposed by the API's
InvitationStatus enum enumerates exactly the four states pending,
accepted, declined and expired — cancelled is absent from the enum — while
cancelling a pending invitation still moves the stored invitation to the
cancelled state. -/
theorem invitation_status_four_states_and_cancel :
    (∀ s : InvitationStatus, s ∈ allInvitationStatuses) ∧
    allInvitationStatuses.map InvitationStatus.value =
      ["pending", "accepted", "declined", "expired"] ∧
    (∀ (inv : Invitation) (sender : Nat), inv.status = "pending" →
      inv.invited_by = sender →
      sp_cancel_invitation inv sender = .ok { inv with status := "cancelled" }) := by
  refine ⟨fun s => by cases s <;> decide, by decide, ?_⟩
  intro inv sender h1 h2
  subst h2
  simp [sp_cancel_invitation, h1]

/-- Closed instance of C8 amended: cancelling a concrete pending
invitation by its inviter yields the cancelled invitation. -/
theorem invitation_status_four_states_and_cancel_witness :
    sp_cancel_invitation ⟨1, 2, 3, 4, "pending", none, 10, 20, none⟩ 3 =
      .ok ⟨1, 2, 3, 4, "cancelled", none, 10, 20, none⟩ :=
  invitation_status_four_states_and_cancel.2.2
    ⟨1, 2, 3, 4, "pending", none, 10, 20, none⟩ 3 rfl rfl

/-- The stored procedure row returned by sp_join_activity as consumed by
the join_activity route: success flag, error code and message on failure,
participation_status and waitlist_position on success. -/
structure SpJoinResult where
  success : Bool
  error_code : String
  error_message : String
  participation_status : String
  waitlist_position : Option Int
deriving DecidableEq, Repr

/-- JoinActivityResponse of src/app/models/responses.py lines 12-19. -/
structure JoinActivityResponse where
  activity_id : Nat
  user_id : Nat
  role : Option String
  participation_status : String
  waitlist_position : Option Int
  joined_at : Nat
  message : String
deriving DecidableEq, Repr

/-- Interpolation of an optional integer into a python f-string. -/
def pyStr : Option Int → String
  | some n => toString n
  | none => "None"

/-- join_activity of src/app/routes/participation.py lines 25-69: raises
the mapped error when the stored procedure reports failure; otherwise the
waitlisted branch answers with status waitlisted, the assigned position
and no role, and the other branch answers with status registered, role
member and no position. -/
def join_activity (activity_id user_id : Nat) (sp : SpJoinResult) (now : Nat) :
    Except HandlerError JoinActivityResponse :=
  if !sp.success then
    .error (.http (map_sp_error sp.error_code sp.error_message))
  else if sp.participation_status == "waitlisted" then
    .ok ⟨activity_id, user_id, none, "waitlisted", sp.waitlist_position, now,
      "Activity is full. You have been added to the waitlist at position " ++
        pyStr sp.waitlist_position ++ "."⟩
  else
    .ok ⟨activity_id, user_id, some "member", "registered", none, now,
      "Successfully joined activity"⟩

/-- C5: every successful join response is one of exactly two shapes:
participation_status waitlisted with the assigned waitlist_position and no
role, or participation_status registered with role member and no
waitlist_position. -/
theorem join_activity_response_shape (activity_id user_id : Nat)
    (sp : SpJoinResult) (now : Nat) (resp : JoinActivityResponse)
    (h : join_activity activity_id user_id sp now = .ok resp) :
    (resp.participation_status = "waitlisted" ∧
     resp.waitlist_position = sp.waitlist_position ∧ resp.role = none) ∨
    (resp.participation_status = "registered" ∧ resp.role = some "member" ∧
     resp.waitlist_position = none) := by
  unfold join_activity at h
  split at h
  · cases h
  · split at h
    · cases h
      exact Or.inl ⟨rfl, rfl, rfl⟩
    · cases h
      exact Or.inr ⟨rfl, rfl, rfl⟩

/-- The concrete response produced by join_activity on a registered
stored-procedure result, used to instantiate the shape theorem. -/
def joinRespEx : JoinActivityResponse :=
  ⟨1, 2, some "member", "registered", none, 9, "Successfully joined activity"⟩

/-- Closed instance of C5 at a concrete registered join. -/
theorem join_activity_response_shape_witness :
    (joinRespEx.participation_status = "waitlisted" ∧
     joinRespEx.waitlist_position =
       (SpJoinResult.mk true "" "" "registered" none).waitlist_position ∧
     joinRespEx.role = none) ∨
    (joinRespEx.participation_status = "registered" ∧
     joinRespEx.role = some "member" ∧ joinRespEx.waitlist_position = none) :=
  join_activity_response_shape 1 2 ⟨true, "", "", "registered", none⟩ 9
    joinRespEx rfl

/-- The stored procedure row consumed by the leave_activity and
cancel_participation routes: success flag, error fields, and the promoted
user id when a waitlist promotion occurred. -/
structure SpLeaveResult where
  success : Bool
  error_code : String
  error_message : String
  promoted_user_id : Option Nat
deriving DecidableEq, Repr

/-- WaitlistPromotedInfo of src/app/models/responses.py lines 7-9. -/
structure WaitlistPromotedInfo where
  user_id : Nat
  promoted_at : Nat
deriving DecidableEq, Repr

/-- LeaveActivityResponse of src/app/models/responses.py lines 22-27. -/
structure LeaveActivityResponse where
  activity_id : Nat
  user_id : Nat
  left_at : Nat
  waitlist_promoted : Option WaitlistPromotedInfo
  message : String
deriving DecidableEq, Repr

/-- CancelParticipationResponse of src/app/models/responses.py
lines 30-36. -/
structure CancelParticipationResponse where
  activity_id : Nat
  user_id : Nat
  participation_status : String
  left_at : Nat
  waitlist_promoted : Option WaitlistPromotedInfo
  message : String
deriving DecidableEq, Repr

/-- leave_activity of src/app/routes/participation.py lines 74-110: on
stored-procedure success, waitlist_promoted is filled exactly when the
procedure reports a promoted_user_id. -/
def leave_activity (activity_id user_id : Nat) (sp : SpLeaveResult) (now : Nat) :
    Except HandlerError LeaveActivityResponse :=
  if !sp.success then
    .error (.http (map_sp_error sp.error_code sp.error_message))
  else
    .ok ⟨activity_id, user_id, now,
      sp.promoted_user_id.map (fun u => ⟨u, now⟩),
      "Successfully left activity"⟩

/-- cancel_participation of src/app/routes/participation.py lines 115-154:
like leave, but the response keeps the row with participation_status
cancelled; reason is forwarded to the stored procedure whose result is the
sp argument. -/
def cancel_participation (activity_id user_id : Nat) (reason : Option String)
    (sp : SpLeaveResult) (now : Nat) :
    Except HandlerError CancelParticipationResponse :=
  if !sp.success then
    .error (.http (map_sp_error sp.error_code sp.error_message))
  else
    .ok ⟨activity_id, user_id, "cancelled", now,
      sp.promoted_user_id.map (fun u => ⟨u, now⟩),
      "Participation cancelled successfully"⟩

/-- C6: every successful leave and every successful cancel reports whether
a waitlist promotion occurred: waitlist_promoted is absent exactly when
the engine reports no promoted user, and otherwise carries exactly the
promoted user id. -/
theorem leave_cancel_waitlist_promoted (activity_id user_id : Nat)
    (reason : Option String) (sp : SpLeaveResult) (now : Nat)
    (respL : LeaveActivityResponse) (respC : CancelParticipationResponse) :
    (leave_activity activity_id user_id sp now = .ok respL →
      ((respL.waitlist_promoted = none ↔ sp.promoted_user_id = none) ∧
       ∀ u, sp.promoted_user_id = some u →
         respL.waitlist_promoted = some ⟨u, now⟩)) ∧
    (cancel_participation activity_id user_id reason sp now = .ok respC →
      ((respC.waitlist_promoted = none ↔ sp.promoted_user_id = none) ∧
       ∀ u, sp.promoted_user_id = some u →
         respC.waitlist_promoted = some ⟨u, now⟩)) := by
  constructor
  · intro h
    unfold leave_activity at h
    split at h
    · cases h
    · cases h
      constructor
      · simp
      · intro u hu
        simp [hu]
  · intro h
    unfold cancel_participation at h
    split at h
    · cases h
    · cases h
      constructor
      · simp
      · intro u hu
        simp [hu]

/-- The stored-procedure result used to instantiate C6 concretely. -/
def spLeaveEx : SpLeaveResult := ⟨true, "", "", some 7⟩

/-- The concrete leave response for spLeaveEx. -/
def leaveRespEx : LeaveActivityResponse :=
  ⟨1, 2, 9, some ⟨7, 9⟩, "Successfully left activity"⟩

/-- The concrete cancel response for spLeaveEx. -/
def cancelRespEx : CancelParticipationResponse :=
  ⟨1, 2, "cancelled", 9, some ⟨7, 9⟩, "Participation cancelled successfully"⟩

/-- Closed instance of C6 at a concrete promoted user. -/
theorem leave_cancel_waitlist_promoted_witness :
    leaveRespEx.waitlist_promoted = some ⟨7, 9⟩ ∧
    cancelRespEx.waitlist_promoted = some ⟨7, 9⟩ :=
  ⟨((leave_cancel_waitlist_promoted 1 2 none spLeaveEx 9 leaveRespEx
      cancelRespEx).1 rfl).2 7 rfl,
   ((leave_cancel_waitlist_promoted 1 2 none spLeaveEx 9 leaveRespEx
      cancelRespEx).2 rfl).2 7 rfl⟩

/-- AttendanceEntry of src/app/models/requests.py lines 19-21: a user id
and a status matching attended or no_show. -/
structure AttendanceEntry where
  user_id : Nat
  status : String
deriving DecidableEq, Repr

/-- MarkAttendanceRequest of src/app/models/requests.py lines 24-25. -/
structure MarkAttendanceRequest where
  attendances : List AttendanceEntry
deriving DecidableEq, Repr

/-- AttendanceUpdate of src/app/models/responses.py lines 98-101: the
declared fields are user_id, attendance_status and updated_at, all
required. -/
structure AttendanceUpdate where
  user_id : Nat
  attendance_status : String
  updated_at : Nat
deriving DecidableEq, Repr

/-- Pydantic construction of AttendanceUpdate from keyword arguments: each
declared field is looked up by its declared name; an unknown keyword is
ignored and a missing required field raises a ValidationError. -/
def AttendanceUpdate.init (kw : List (String × PyValue)) :
    Except String AttendanceUpdate :=
  match kwLookup kw "user_id", kwLookup kw "attendance_status",
      kwLookup kw "updated_at" with
  | some (.uuid u), some (.str s), some (.time t) => .ok ⟨u, s, t⟩
  | _, _, _ => .error "ValidationError: AttendanceUpdate"

/-- MarkAttendanceResponse of src/app/models/responses.py lines 104-108. -/
structure MarkAttendanceResponse where
  activity_id : Nat
  updated_count : Int
  attendances : List AttendanceUpdate
  message : String
deriving DecidableEq, Repr

/-- The stored procedure row returned by sp_mark_attendance as consumed by
the route: success flag, error fields, updated_count, and the user ids of
the per-item failed updates parsed from the failed_updates JSONB. -/
structure SpMarkAttendanceResult where
  success : Bool
  error_code : String
  error_message : String
  updated_count : Int
  failed_updates : List Nat
deriving DecidableEq, Repr

/-- mark_attendance of src/app/routes/attendance.py lines 25-76: raises
the mapped error on stored-procedure failure; otherwise builds, for every
requested entry whose user_id is not among the failed updates, an
AttendanceUpdate with the keywords user_id, status and updated_at - the
keywords the python list comprehension actually passes. -/
def mark_attendance (activity_id : Nat) (body : MarkAttendanceRequest)
    (sp : SpMarkAttendanceResult) (now : Nat) :
    Except HandlerError MarkAttendanceResponse :=
  if !sp.success then
    .error (.http (map_sp_error sp.error_code sp.error_message))
  else
    match (body.attendances.filter
        (fun att => !(sp.failed_updates.contains att.user_id))).mapM
        (fun att => AttendanceUpdate.init
          [("user_id", .uuid att.user_id), ("status", .str att.status),
           ("updated_at", .time now)]) with
    | .ok successful_attendances =>
        .ok ⟨activity_id, sp.updated_count, successful_attendances,
          "Attendance updated successfully"⟩
    | .error e => .error (.validation e)

/-- C1 (code bug): the route passes the keyword `status` where the
AttendanceUpdate response model declares the required field
`attendance_status`, so a mark_attendance call with any successful update
raises a ValidationError instead of returning the record the claim
describes; with the declared field name the same construction succeeds,
and a call in which every entry failed (so no record is built) still
returns a success. -/
theorem mark_attendance_field_name_bug :
    mark_attendance 1 ⟨[⟨7, "attended"⟩]⟩ ⟨true, "", "", 1, []⟩ 50 =
      .error (.validation "ValidationError: AttendanceUpdate") ∧
    AttendanceUpdate.init
      [("user_id", .uuid 7), ("status", .str "attended"),
       ("updated_at", .time 50)] =
      .error "ValidationError: AttendanceUpdate" ∧
    AttendanceUpdate.init
      [("user_id", .uuid 7), ("attendance_status", .str "attended"),
       ("updated_at", .time 50)] = .ok ⟨7, "attended", 50⟩ ∧
    mark_attendance 1 ⟨[⟨7, "attended"⟩]⟩ ⟨true, "", "", 0, [7]⟩ 50 =
      .ok ⟨1, 0, [], "Attendance updated successfully"⟩ :=
  ⟨rfl, rfl, rfl, rfl⟩

/-- InvitationCreated of src/app/models/responses.py lines 140-145: the
declared fields are invitation_id, user_id, status, invited_at and
expires_at, all required. -/
structure InvitationCreated where
  invitation_id : Nat
  user_id : Nat
  status : String
  invited_at : Nat
  expires_at : Nat
deriving DecidableEq, Repr

/-- Pydantic construction of InvitationCreated from keyword arguments. -/
def InvitationCreated.init (kw : List (String × PyValue)) :
    Except String InvitationCreated :=
  match kwLookup kw "invitation_id", kwLookup kw "user_id",
      kwLookup kw "status", kwLookup kw "invited_at",
      kwLookup kw "expires_at" with
  | some (.uuid i), some (.uuid u), some (.str s), some (.time a),
      some (.time e) => .ok ⟨i, u, s, a, e⟩
  | _, _, _, _, _ => .error "ValidationError: InvitationCreated"

/-- FailedInvitation of src/app/models/responses.py lines 148-150. -/
structure FailedInvitation where
  user_id : Nat
  reason : String
deriving DecidableEq, Repr

/-- Pydantic construction of FailedInvitation from keyword arguments. -/
def FailedInvitation.init (kw : List (String × PyValue)) :
    Except String FailedInvitation :=
  match kwLookup kw "user_id", kwLookup kw "reason" with
  | some (.uuid u), some (.str r) => .ok ⟨u, r⟩
  | _, _ => .error "ValidationError: FailedInvitation"

/-- One created invitation parsed from the invitations JSONB of
sp_send_invitations. -/
structure SpInvitationRow where
  invitation_id : Nat
  invited_user_id : Nat
  invited_at : Nat
  expires_at : Nat
deriving DecidableEq, Repr

/-- One failed recipient parsed from the failed_invitations JSONB of
sp_send_invitations. -/
structure SpFailedInvitationRow where
  user_id : Nat
  reason : String
deriving DecidableEq, Repr

/-- The stored procedure row returned by sp_send_invitations as consumed
by the route. -/
structure SpSendInvitationsResult where
  success : Bool
  error_code : String
  error_message : String
  invited_count : Int
  failed_count : Int
  invitations : List SpInvitationRow
  failed_invitations : List SpFailedInvitationRow
deriving DecidableEq, Repr

/-- SendInvitationsResponse of src/app/models/responses.py
lines 153-159. -/
structure SendInvitationsResponse where
  activity_id : Nat
  invited_count : Int
  failed_count : Int
  invitations : List InvitationCreated
  failed_invitations : List FailedInvitation
  message : String
deriving DecidableEq, Repr

/-- send_invitations of src/app/routes/invitations.py lines 30-89: raises
the mapped error on stored-procedure failure; otherwise builds one
InvitationCreated per created invitation with the keywords invitation_id,
invited_user_id, invited_at and expires_at - the keywords the route
actually passes - and one FailedInvitation per failed recipient with the
keywords user_id and reason. -/
def send_invitations (activity_id : Nat) (sp : SpSendInvitationsResult) :
    Except HandlerError SendInvitationsResponse :=
  if !sp.success then
    .error (.http (map_sp_error sp.error_code sp.error_message))
  else
    match sp.invitations.mapM (fun inv => InvitationCreated.init
        [("invitation_id", .uuid inv.invitation_id),
         ("invited_user_id", .uuid inv.invited_user_id),
         ("invited_at", .time inv.invited_at),
         ("expires_at", .time inv.expires_at)]) with
    | .error e => .error (.validation e)
    | .ok invitations =>
      match sp.failed_invitations.mapM (fun f => FailedInvitation.init
          [("user_id", .uuid f.user_id), ("reason", .str f.reason)]) with
      | .error e => .error (.validation e)
      | .ok failed_invitations =>
          .ok ⟨activity_id, sp.invited_count, sp.failed_count, invitations,
            failed_invitations,
            toString sp.invited_count ++ " invitation(s) sent successfully"⟩

/-- C2 (code bug): the route passes the keyword invited_user_id and no
status where the InvitationCreated response model declares the required
fields user_id and status, so a send_invitations call with any invited
recipient raises a ValidationError instead of returning the record the
claim describes; with the declared field names the same construction
succeeds, and a call in which every recipient failed still returns a
success reporting the counts and per-recipient reasons. -/
theorem send_invitations_field_name_bug :
    send_invitations 1 ⟨true, "", "", 1, 0, [⟨3, 8, 100, 172⟩], []⟩ =
      .error (.validation "ValidationError: InvitationCreated") ∧
    InvitationCreated.init
      [("invitation_id", .uuid 3), ("invited_user_id", .uuid 8),
       ("invited_at", .time 100), ("expires_at", .time 172)] =
      .error "ValidationError: InvitationCreated" ∧
    InvitationCreated.init
      [("invitation_id", .uuid 3), ("user_id", .uuid 8),
       ("status", .str "pending"), ("invited_at", .time 100),
       ("expires_at", .time 172)] = .ok ⟨3, 8, "pending", 100, 172⟩ ∧
    send_invitations 1 ⟨true, "", "", 0, 1, [], [⟨8, "already_participant"⟩]⟩ =
      .ok ⟨1, 0, 1, [], [⟨8, "already_participant"⟩],
        "0 invitation(s) sent successfully"⟩ :=
  ⟨rfl, rfl, rfl, rfl⟩

/-- ParticipantInfo of src/app/models/responses.py lines 39-51. -/
structure ParticipantInfo where
  user_id : Nat
  username : String
  first_name : Option String
  last_name : Option String
  profile_photo_url : Option String
  role : String
  participation_status : String
  attendance_status : String
  joined_at : Nat
  is_verified : Bool
  verification_count : Int
deriving DecidableEq, Repr

/-- ListParticipantsResponse of src/app/models/responses.py
lines 53-56. -/
structure ListParticipantsResponse where
  activity_id : Nat
  total_count : Nat
  participants : List ParticipantInfo
deriving DecidableEq, Repr

/-- WaitlistEntry of src/app/models/responses.py lines 224-232. -/
structure WaitlistEntry where
  waitlist_id : Nat
  user_id : Nat
  username : String
  first_name : Option String
  profile_photo_url : Option String
  position : Int
  created_at : Nat
  notified_at : Option Nat
deriving DecidableEq, Repr

/-- WaitlistResponse of src/app/models/responses.py lines 235-238. -/
structure WaitlistResponse where
  activity_id : Nat
  total_count : Nat
  waitlist : List WaitlistEntry
deriving DecidableEq, Repr

/-- ActivityInfo of src/app/models/responses.py lines 59-73. -/
structure ActivityInfo where
  activity_id : Nat
  title : String
  scheduled_at : Nat
  location_name : Option String
  city : Option String
  organizer_user_id : Nat
  organizer_username : String
  current_participants_count : Int
  max_participants : Option Int
  activity_type : String
  role : Option String
  participation_status : String
  attendance_status : String
  joined_at : Nat
deriving DecidableEq, Repr

/-- UserActivitiesResponse of src/app/models/responses.py lines 76-79. -/
structure UserActivitiesResponse where
  user_id : Nat
  total_count : Nat
  activities : List ActivityInfo
deriving DecidableEq, Repr

/-- list_participants of src/app/routes/participation.py lines 159-219:
a row is a participant record paired with the total_count column; an
empty result raises 404, otherwise the total count is read off the first
row. -/
def list_participants (activity_id : Nat)
    (rows : List (ParticipantInfo × Nat)) :
    Except HTTPException ListParticipantsResponse :=
  match rows with
  | [] => .error ⟨404, "Activity not found or access denied"⟩
  | r :: rest => .ok ⟨activity_id, r.2, (r :: rest).map (fun row => row.1)⟩

/-- get_waitlist of src/app/routes/waitlist.py lines 14-64: an empty
result raises 403, otherwise the total count is read off the first row. -/
def get_waitlist (activity_id : Nat) (rows : List (WaitlistEntry × Nat)) :
    Except HTTPException WaitlistResponse :=
  match rows with
  | [] => .error ⟨403, "Only organizer or co-organizer can view waitlist"⟩
  | r :: rest => .ok ⟨activity_id, r.2, (r :: rest).map (fun row => row.1)⟩

/-- get_user_activities of src/app/routes/participation.py lines 224-278:
an empty result is NOT an error (silent fail for privacy); the total
count is the first row's total_count, or 0 when there are no rows. -/
def get_user_activities (user_id : Nat) (rows : List (ActivityInfo × Nat)) :
    UserActivitiesResponse :=
  ⟨user_id,
   (match rows with
    | [] => 0
    | r :: _ => r.2),
   rows.map (fun row => row.1)⟩

/-- Modelled from the spec: pagination as the stored list procedures
perform it per sections 4.1 and 6 - filter first, then apply offset and
limit, attaching to every returned row the total count of the filtered
set, independent of the page. -/
def spPaginate {α : Type} (xs : List α) (limit offset : Int) : List (α × Nat) :=
  ((xs.drop offset.toNat).take limit.toNat).map (fun x => (x, xs.length))

/-- Modelled from the spec: sp_list_participants is a stored procedure not
under src/. Per section 4.1 it returns the participants visible to the
viewer, filterable by participation_status and role, paginated, with a
total count independent of pagination. -/
def sp_list_participants (visible : List ParticipantInfo)
    (status role : Option String) (limit offset : Int) :
    List (ParticipantInfo × Nat) :=
  spPaginate (visible.filter (fun p =>
    status.all (fun s => s == p.participation_status) &&
      role.all (fun r => r == p.role))) limit offset

/-- Modelled from the spec: sp_get_waitlist is a stored procedure not
under src/. It returns the waitlist entries the viewer may see, sorted by
position, paginated, with a total count independent of pagination. -/
def sp_get_waitlist (entries : List WaitlistEntry) (limit offset : Int) :
    List (WaitlistEntry × Nat) :=
  spPaginate entries limit offset

/-- Modelled from the spec: sp_get_user_activities is a stored procedure
not under src/. It returns the activities of a user visible to the
viewer, filterable by type and status, paginated, with a total count
independent of pagination; the type filter is an external predicate. -/
def sp_get_user_activities (visible : List ActivityInfo)
    (typeFilter : ActivityInfo → Bool) (status : Option String)
    (limit offset : Int) : List (ActivityInfo × Nat) :=
  spPaginate (visible.filter (fun a =>
    typeFilter a && status.all (fun s => s == a.participation_status)))
    limit offset

/-- A concrete participant used to exercise the list routes. -/
def participantEx : ParticipantInfo :=
  ⟨7, "alice", none, none, none, "member", "registered", "pending", 10,
   false, 0⟩

/-- A concrete waitlist entry used to exercise the list routes. -/
def waitlistEntryEx : WaitlistEntry :=
  ⟨1, 7, "alice", none, none, 1, 10, none⟩

/-- C3 counterexample: with one visible participant and offset 5, the page
selects no rows, and list_participants answers 404 rather than a success
with the total count; likewise get_waitlist answers 403 on an empty page,
contrary to the claim that all three list operations return an empty page
as a success. -/
theorem list_empty_page_not_success :
    sp_list_participants [participantEx] none none 50 5 = [] ∧
    list_participants 1 (sp_list_participants [participantEx] none none 50 5) =
      .error ⟨404, "Activity not found or access denied"⟩ ∧
    sp_get_waitlist [waitlistEntryEx] 50 5 = [] ∧
    get_waitlist 1 (sp_get_waitlist [waitlistEntryEx] 50 5) =
      .error ⟨403, "Only organizer or co-organizer can view waitlist"⟩ :=
  ⟨rfl, rfl, rfl, rfl⟩

theorem spPaginate_total_mem {α : Type} {xs : List α} {l o : Int}
    {r : α × Nat} (h : r ∈ spPaginate xs l o) : r.2 = xs.length := by
  unfold spPaginate at h
  rcases List.mem_map.mp h with ⟨x, _, rfl⟩
  rfl

/-- A concrete activity used to exercise get_user_activities. -/
def activityEx : ActivityInfo :=
  ⟨1, "picnic", 100, none, none, 2, "bob", 1, none, "social",
   some "member", "registered", "pending", 10⟩

/-- C3 amended: every stored list procedure attaches to each returned row
a total count independent of the page - for fixed viewer-visible data and
filters, any two (limit, offset) pairs put the same total_count on every
returned row. But a page that selects no rows is not returned with that
total: list_participants answers 404 and get_waitlist answers 403, while
get_user_activities returns a success whose total_count is 0 rather than
the page-independent total - on a one-activity set, an offset past the
end yields total_count 0 where offset 0 yields total_count 1, so at the
route level its total count does depend on the page. -/
theorem list_total_count_page_independent
    (visible : List ParticipantInfo) (status role : Option String)
    (entries : List WaitlistEntry) (acts : List ActivityInfo)
    (typeFilter : ActivityInfo → Bool) (statusA : Option String)
    (l1 o1 l2 o2 : Int) (uid aid : Nat) :
    (∀ r1 r2, r1 ∈ sp_list_participants visible status role l1 o1 →
      r2 ∈ sp_list_participants visible status role l2 o2 → r1.2 = r2.2) ∧
    (∀ r1 r2, r1 ∈ sp_get_waitlist entries l1 o1 →
      r2 ∈ sp_get_waitlist entries l2 o2 → r1.2 = r2.2) ∧
    (∀ r1 r2, r1 ∈ sp_get_user_activities acts typeFilter statusA l1 o1 →
      r2 ∈ sp_get_user_activities acts typeFilter statusA l2 o2 →
      r1.2 = r2.2) ∧
    get_user_activities uid [] = ⟨uid, 0, []⟩ ∧
    (get_user_activities 5
      (sp_get_user_activities [activityEx] (fun _ => true) none 50 5)
      ).total_count = 0 ∧
    (get_user_activities 5
      (sp_get_user_activities [activityEx] (fun _ => true) none 50 0)
      ).total_count = 1 ∧
    list_participants aid [] =
      .error ⟨404, "Activity not found or access denied"⟩ ∧
    get_waitlist aid [] =
      .error ⟨403, "Only organizer or co-organizer can view waitlist"⟩ := by
  refine ⟨?_, ?_, ?_, rfl, rfl, rfl, rfl, rfl⟩
  · intro r1 r2 h1 h2
    unfold sp_list_participants at h1 h2
    rw [spPaginate_total_mem h1, spPaginate_total_mem h2]
  · intro r1 r2 h1 h2
    unfold sp_get_waitlist at h1 h2
    rw [spPaginate_total_mem h1, spPaginate_total_mem h2]
  · intro r1 r2 h1 h2
    unfold sp_get_user_activities at h1 h2
    rw [spPaginate_total_mem h1, spPaginate_total_mem h2]

/-- Closed instance of C3 amended: the same participant row appears on two
different pages with the same total count, and an empty user-activities
page is a success with total count 0. -/
theorem list_total_count_page_independent_witness :
    ((participantEx, 1) : ParticipantInfo × Nat).2 =
      ((participantEx, 1) : ParticipantInfo × Nat).2 ∧
    get_user_activities 5 [] = ⟨5, 0, []⟩ :=
  ⟨(list_total_count_page_independent [participantEx] none none [] []
      (fun _ => true) none 10 0 20 0 5 1).1 (participantEx, 1)
      (participantEx, 1) (by decide) (by decide),
   (list_total_count_page_independent [participantEx] none none [] []
      (fun _ => true) none 10 0 20 0 5 1).2.2.2.1⟩

/-- The participation state of one activity inside the engine: the user
ids currently registered and the waitlist in FIFO order (the entry at
index i holds position i + 1). -/
structure EngineState where
  registered : List Nat
  waitlist : List Nat
deriving DecidableEq, Repr

/-- The outcome of one join: registered, or waitlisted at a position. -/
inductive JoinOutcome where
  | registered
  | waitlisted (position : Nat)
deriving DecidableEq, Repr

/-- Modelled from the spec: the join algorithm of sp_join_activity is a
stored procedure not under src/. Per section 4.1, inside one atomic unit
the current registered participants are counted; if the count is below
max_participants (or capacity is unlimited) the user is inserted as a
registered member, otherwise the enqueue of section 4.2 appends the user
to the waitlist at position current-max + 1. -/
def join (max_participants : Option Nat) (st : EngineState) (u : Nat) :
    EngineState × JoinOutcome :=
  match max_participants with
  | none => (⟨st.registered ++ [u], st.waitlist⟩, .registered)
  | some n =>
    if st.registered.length < n then
      (⟨st.registered ++ [u], st.waitlist⟩, .registered)
    else
      (⟨st.registered, st.waitlist ++ [u]⟩,
       .waitlisted (st.waitlist.length + 1))

/-- A batch of joins run one after the other: per section 5 the
per-activity serialization makes any group of concurrent joins execute as
such a sequence. -/
def joinAll (max_participants : Option Nat) (st : EngineState) :
    List Nat → EngineState × List JoinOutcome
  | [] => (st, [])
  | u :: us =>
    let p := join max_participants st u
    let q := joinAll max_participants p.1 us
    (q.1, p.2 :: q.2)

theorem joinAll_full (n : Nat) (us : List Nat) :
    ∀ st : EngineState, st.registered.length = n →
      joinAll (some n) st us =
        (⟨st.registered, st.waitlist ++ us⟩,
         (List.range us.length).map
           (fun i => JoinOutcome.waitlisted (st.waitlist.length + i + 1))) := by
  induction us with
  | nil =>
    intro st h
    simp [joinAll]
  | cons u us ih =>
    intro st h
    have hnot : ¬ st.registered.length < n := by omega
    have hjoin : join (some n) st u =
        (⟨st.registered, st.waitlist ++ [u]⟩,
         .waitlisted (st.waitlist.length + 1)) := by
      simp [join, hnot]
    have hrec := ih ⟨st.registered, st.waitlist ++ [u]⟩ h
    simp only [joinAll, hjoin, hrec]
    simp only [Prod.mk.injEq]
    constructor
    · simp
    · simp only [List.length_cons]
      rw [List.range_succ_eq_map, List.map_cons, List.map_map]
      congr 1
      apply List.map_congr_left
      intro a ha
      simp only [Function.comp, List.length_append, List.length_cons,
        List.length_nil]
      congr 1
      omega

theorem joinAll_capacity (n : Nat) (us : List Nat) :
    ∀ st : EngineState, st.registered.length ≤ n →
      (joinAll (some n) st us).1.registered.length ≤ n := by
  induction us with
  | nil =>
    intro st h
    simpa [joinAll] using h
  | cons u us ih =>
    intro st h
    have hstep : (join (some n) st u).1.registered.length ≤ n := by
      unfold join
      by_cases hlt : st.registered.length < n
      · simp [hlt]
        omega
      · simp [hlt]
        omega
    have hunfold : (joinAll (some n) st (u :: us)).1 =
        (joinAll (some n) (join (some n) st u).1 us).1 := by
      simp [joinAll]
    rw [hunfold]
    exact ih _ hstep

/-- C4: with max_participants = N the count of registered participants
never exceeds N over any serialized batch of joins (the spec's
per-activity serialization reduces concurrent joins to such a batch), and
a batch aimed at one free slot registers exactly its first join while
every later join is waitlisted, at positions 1, 2, 3, ... in increasing
order. -/
theorem join_capacity_never_exceeded (n : Nat) :
    (∀ (st : EngineState) (us : List Nat), st.registered.length ≤ n →
      (joinAll (some n) st us).1.registered.length ≤ n) ∧
    (∀ (st : EngineState) (u : Nat) (us : List Nat),
      st.registered.length + 1 = n → st.waitlist = [] →
      (joinAll (some n) st (u :: us)).2 =
        .registered ::
          (List.range us.length).map
            (fun i => JoinOutcome.waitlisted (i + 1)) ∧
      (joinAll (some n) st (u :: us)).1.registered.length = n) := by
  constructor
  · exact fun st us h => joinAll_capacity n us st h
  · intro st u us h1 h2
    obtain ⟨reg, wl⟩ := st
    replace h1 : reg.length + 1 = n := h1
    replace h2 : wl = [] := h2
    subst h2
    have hlt : reg.length < n := by omega
    have hjoin : join (some n) ⟨reg, []⟩ u =
        (⟨reg ++ [u], []⟩, .registered) := by
      simp [join, hlt]
    have hfull := joinAll_full n us ⟨reg ++ [u], []⟩
      (by simp [List.length_append]; omega)
    constructor
    · simp only [joinAll, hjoin, hfull]
      simp
    · simp only [joinAll, hjoin, hfull]
      simp [List.length_append]
      omega

/-- Closed instance of C4: capacity 2 with one slot free ([1] registered,
empty waitlist); of the three joins 10, 11, 12 exactly the first is
registered, the others are waitlisted at positions 1 and 2, and the
activity ends exactly full. -/
theorem join_capacity_never_exceeded_witness :
    (joinAll (some 2) ⟨[1], []⟩ (10 :: [11, 12])).2 =
      .registered ::
        (List.range [11, 12].length).map
          (fun i => JoinOutcome.waitlisted (i + 1)) ∧
    (joinAll (some 2) ⟨[1], []⟩ (10 :: [11, 12])).1.registered.length = 2 :=
  (join_capacity_never_exceeded 2).2 ⟨[1], []⟩ 10 [11, 12] rfl rfl
